import Mathlib

/-!
Verification development for the gatsby-transformer-video conversion core.

The definitions below are a shallow embedding of the TypeScript sources:

* `src/packages/gatsby-transformer-video/src/gatsby-node.ts`
  (`onPreInit` tier rotation, `onPostBuild` reconciliation, `resolveVideo`)
* `src/unnamed/part_007` (class `FFMPEG`: `restoreFromCache`, `convertVideo`,
  `createFilters`, `generateScaleFilter`, `parseVideoStream`,
  `analyzeAndFetchVideo`, `executeFfmpeg`)
* `src/unnamed/part_006` (`prepareAndAnalyzeVideo`)
* `src/unnamed/part_000` (`profileH264`),
  `src/packages/gatsby-transformer-video/src/profiles/h265.ts` (`profileH265`),
  `src/packages/gatsby-transformer-video/src/profiles/vp9.ts` (`profileVP9`)

JavaScript value semantics are made explicit: nullable numbers are
`Option Int` (with `none` for `null`/`undefined`, and separately for `NaN`
where a computation can produce it), nullable strings are `Option String`,
and JS truthiness (`0`, `""`, `null`, `undefined`, `NaN` are falsy) is the
`jsTruthy*` family.  Filesystem effects are modelled as explicit state
passing over small state records; promise rejection is `Except`.
-/

namespace GatsbyVideo

/-! ## JavaScript value helpers -/

/-- Truthiness of a nullable JS number: `null`/`undefined` and `0` are falsy. -/
def jsTruthyOptInt : Option Int → Bool
  | none => false
  | some n => n != 0

/-- Truthiness of a nullable JS string: `null`/`undefined` and `""` are falsy. -/
def jsTruthyOptStr : Option String → Bool
  | none => false
  | some s => s != ""

/-- Template interpolation of a nullable JS number (`null` prints as "null"). -/
def jsShowOptInt : Option Int → String
  | none => "null"
  | some n => toString n

/-- `x || 0` on a possibly-missing JS number. -/
def jsOrZero : Option Int → Int
  | none => 0
  | some n => n

/-- `a || b` on JS numbers: keeps `a` when truthy, else yields `b`. -/
def jsOrInt (a b : Option Int) : Option Int :=
  if jsTruthyOptInt a then a else b

/-- `a || b` on a nullable JS string versus a string default. -/
def jsOrStr (a : Option String) (b : String) : String :=
  if jsTruthyOptStr a then a.getD "" else b

/-- Digits of a decimal prefix, `none` when there is no digit (JS `NaN`). -/
def digitsToNat (l : List Char) : Option Nat :=
  if l.isEmpty then none
  else some (l.foldl (fun acc c => acc * 10 + (c.toNat - ('0').toNat)) 0)

/-- JS `parseInt` on base-10 input: optional sign, then the longest digit
prefix; `none` models `NaN`. -/
def jsParseInt (s : String) : Option Int :=
  let l := s.data.dropWhile (fun c => c = ' ')
  match l with
  | '-' :: rest => (digitsToNat (rest.takeWhile Char.isDigit)).map (fun n => -(n : Int))
  | '+' :: rest => (digitsToNat (rest.takeWhile Char.isDigit)).map (fun n => (n : Int))
  | _ => (digitsToNat (l.takeWhile Char.isDigit)).map (fun n => (n : Int))

/-- Substring test over char lists, the semantics of JS `indexOf !== -1`. -/
def containsAux (pat : List Char) : List Char → Bool
  | [] => pat.isEmpty
  | c :: rest => pat.isPrefixOf (c :: rest) || containsAux pat rest

/-- JS `s.indexOf(pat) !== -1`. -/
def containsSubstr (s pat : String) : Bool :=
  containsAux pat.data s.data

/-! ## Tiered cache state (`restoreFromCache`, `onPreInit`, `onPostBuild`)

The cache state for one cache key: whether the artifact file exists in the
active tier and in the rolling tier. -/

structure TierState where
  active : Bool
  rolling : Bool
deriving DecidableEq, Repr

/-- `FFMPEG.restoreFromCache` (src/unnamed/part_007, lines 191-208):
check the active path; if absent, check the rolling path and `move` the
rolling artifact to the active path on a rolling hit.  Returns the hit flag
together with the resulting tier state. -/
def restoreFromCache (s : TierState) : Bool × TierState :=
  let inActiveCache := s.active
  if !inActiveCache then
    if s.rolling then
      (true, { active := true, rolling := false })
    else
      (inActiveCache, s)
  else
    (inActiveCache, s)

/-- Tier-rotation part of `onPreInit` (gatsby-node.ts, lines 451-468):
in production, delete a stale rolling tier when both tiers exist, then move
the active tier to become the rolling tier when an active tier exists. -/
def onPreInitRotation (nodeEnv : String) (s : TierState) : TierState :=
  if nodeEnv = "production" then
    let hasActiveCache := s.active
    let hasRollingCache := s.rolling
    let s1 := if hasRollingCache && hasActiveCache then { s with rolling := false } else s
    if hasActiveCache then { active := false, rolling := true } else s1
  else s

/-- `onPostBuild` reconciliation (gatsby-node.ts, lines 504-535):
both guards read the tier existence flags captured at entry. -/
def onPostBuild (nodeEnv : String) (s : TierState) : TierState :=
  let hasActiveCache := s.active
  let hasRollingCache := s.rolling
  let s1 :=
    if !hasActiveCache && hasRollingCache && nodeEnv = "production" then
      { active := true, rolling := false }
    else s
  if hasActiveCache && hasRollingCache && nodeEnv = "production" then
    { s1 with rolling := false }
  else s1

/-! ## `convertVideo` and the external ffmpeg run (claim C1)

`FFMPEG.convertVideo` (src/unnamed/part_007, lines 216-284) saves the
transcoder output directly to the active cache path (`cachePath =
activePath`) via `executeFfmpeg` (lines 57-99), which rejects its promise on
the ffmpeg `error` event.  The external process writes to the destination
while running, so a failed run may leave whatever bytes were already written
at the active cache path; `convertVideo` performs no cleanup on that path
(the error propagates out of the enclosing promise).  The model keeps the
filesystem facts relevant to cache lookups: existence of the artifact at the
active path, the rolling path, and the public path. -/

/-- Outcome of one external ffmpeg invocation.  On failure,
`leftoverWritten` records whether the process had already created (partial)
output at the destination path before erroring. -/
inductive FfmpegOutcome
  | success
  | failure (leftoverWritten : Bool)
deriving DecidableEq, Repr

structure ConvertFS where
  active : Bool
  rolling : Bool
  publicFile : Bool
deriving DecidableEq, Repr

/-- `FFMPEG.convertVideo` on the cache/public filesystem state.  A cache
miss triggers `executeFfmpeg` saving to the active path; on success the
artifact is then copied to the public dir, on failure the promise rejects
with the ffmpeg error and nothing else runs. -/
def convertVideoFS (outcome : FfmpegOutcome) (fs : ConvertFS) :
    Except String Unit × ConvertFS :=
  let (restoredFromCache, ts) := restoreFromCache ⟨fs.active, fs.rolling⟩
  let fs1 : ConvertFS := { fs with active := ts.active, rolling := ts.rolling }
  if !restoredFromCache then
    match outcome with
    | .success =>
        -- artifact completely written at activePath, then copied to public
        (Except.ok (), { fs1 with active := true, publicFile := true })
    | .failure leftoverWritten =>
        -- promise rejects; partial output (if any) stays at activePath
        (Except.error ("ffmpeg reported an error"), { fs1 with active := leftoverWritten })
  else
    (Except.ok (), { fs1 with publicFile := true })

/-! ## Probed stream metadata and `createFilters` -/

/-- The fields of an ffprobe stream record used by this plugin.  All fields
are optional in the probe output. -/
structure FfprobeStream where
  codec_type : Option String := none
  r_frame_rate : Option String := none
  width : Option Int := none
  height : Option Int := none
  duration : Option String := none
deriving DecidableEq, Repr

/-- The transformer field arguments consumed by `createFilters`
(GraphQL defaults: every numeric field nullable, `saturation` defaults
to 1). -/
structure FieldArgs where
  maxWidth : Option Int := none
  maxHeight : Option Int := none
  duration : Option Int := none
  fps : Option Int := none
  saturation : Rat := 1
  overlay : Option String := none
  overlayX : Option String := none
  overlayY : Option String := none
  overlayPadding : Option Int := none
deriving DecidableEq, Repr

/-- Zero-pad a natural to six digits. -/
def pad6 (n : Nat) : String :=
  let s := toString n
  String.mk (List.replicate (6 - s.length) '0') ++ s

/-- `(d / p).toFixed(6)` for integer `d`, `p` with `p ≠ 0`: decimal
rendering of `d / p` rounded to six fractional digits (nearest, ties up). -/
def toFixed6 (d p : Int) : String :=
  let num := if p < 0 then -d * 1000000 else d * 1000000
  let den := if p < 0 then -p else p
  let v := Int.fdiv (2 * num + den) (2 * den)
  let sign := if v < 0 then "-" else ""
  let a := v.natAbs
  sign ++ toString (a / 1000000) ++ "." ++ pad6 (a % 1000000)

/-- `(duration / parseInt(sourceDuration)).toFixed(6)`: JS yields "NaN"
when the parse fails and "Infinity" on division by zero. -/
def jsDivToFixed6 (d : Int) (sourceDuration : String) : String :=
  match jsParseInt sourceDuration with
  | none => "NaN"
  | some p =>
      if p = 0 then
        if d > 0 then "Infinity" else if d < 0 then "-Infinity" else "NaN"
      else toFixed6 d p

/-- `FFMPEG.generateScaleFilter` (src/unnamed/part_007, lines 559-570). -/
def generateScaleFilter (maxWidth maxHeight : Option Int) : String :=
  if !jsTruthyOptInt maxHeight then
    "'min(" ++ (jsShowOptInt maxWidth ++ ",iw)':-2:flags=lanczos")
  else
    "'min(iw*min(1\\,min(" ++
      (jsShowOptInt maxWidth ++ ("/iw\\," ++
        (jsShowOptInt maxHeight ++ "/ih)), iw)':-2:flags=lanczos")))

/-- One `overlay` coordinate (src/unnamed/part_007, lines 511-533):
`undefined` defaults to "center"; the anchors start/center/end are then
rewritten in sequence.  `horizontal` selects the `main_w`/`main_h` family. -/
def resolveOverlayCoord (horizontal : Bool) (v : Option String) (padding : Int) : String :=
  let x := match v with | none => "center" | some s => s
  let x := if x = "start" then toString padding else x
  let x := if x = "center" then
      (if horizontal then "(main_w-overlay_w)/2" else "(main_h-overlay_h)/2")
    else x
  let x := if x = "end" then
      (if horizontal then "main_w-overlay_w-" ++ toString padding
       else "main_h-overlay_h-" ++ toString padding)
    else x
  x

/-- The `overlay=x=..:y=..` filter stage. -/
def overlayFilter (a : FieldArgs) : String :=
  let padding := match a.overlayPadding with | none => 10 | some p => p
  "overlay=x=" ++
    (resolveOverlayCoord true a.overlayX padding ++
      (":y=" ++ resolveOverlayCoord false a.overlayY padding))

/-- `FFMPEG.createFilters` (src/unnamed/part_007, lines 466-539).
Destructuring `info.streams[0]` throws a TypeError in JS when the stream
list is empty; otherwise the five stages are pushed conditionally, in
order: duration/time-remap, frame rate, scale, saturation, overlay. -/
def createFilters (fieldArgs : FieldArgs) (streams : List FfprobeStream) :
    Except String (List String) :=
  match streams.head? with
  | none => Except.error ("TypeError: cannot destructure info.streams[0]")
  | some st0 =>
    let sourceDuration := st0.duration
    let durationStage :=
      if jsTruthyOptInt fieldArgs.duration && jsTruthyOptStr sourceDuration then
        ["setpts=" ++ (jsDivToFixed6 (fieldArgs.duration.getD 0) (sourceDuration.getD "") ++ "*PTS")]
      else []
    let fpsStage :=
      if jsTruthyOptInt fieldArgs.fps then
        ["fps=" ++ jsShowOptInt fieldArgs.fps]
      else []
    let scaleStage :=
      if jsTruthyOptInt fieldArgs.maxWidth || jsTruthyOptInt fieldArgs.maxHeight then
        ["scale=" ++ generateScaleFilter fieldArgs.maxWidth fieldArgs.maxHeight]
      else []
    let saturationStage :=
      if fieldArgs.saturation ≠ 1 then
        ["eq=saturation=" ++ toString fieldArgs.saturation]
      else []
    let overlayStage :=
      if jsTruthyOptStr fieldArgs.overlay then [overlayFilter fieldArgs] else []
    Except.ok (durationStage ++ fpsStage ++ scaleStage ++ saturationStage ++ overlayStage)

/-- Classifies a filter stage string by its leading characters, used to
state the fixed stage ordering. -/
def stageRankAux : List Char → Nat
  | 's' :: 'e' :: 't' :: 'p' :: 't' :: 's' :: '=' :: _ => 0
  | 'f' :: 'p' :: 's' :: '=' :: _ => 1
  | 's' :: 'c' :: 'a' :: 'l' :: 'e' :: '=' :: _ => 2
  | 'e' :: 'q' :: '=' :: _ => 3
  | 'o' :: 'v' :: 'e' :: 'r' :: 'l' :: 'a' :: 'y' :: '=' :: _ => 4
  | _ => 5

/-- Stage class of one filter string. -/
def stageRank (s : String) : Nat := stageRankAux s.data

theorem stageRank_setpts (t : String) : stageRank ("setpts=" ++ t) = 0 := rfl

theorem stageRank_fps (t : String) : stageRank ("fps=" ++ t) = 1 := rfl

theorem stageRank_scale (t : String) : stageRank ("scale=" ++ t) = 2 := rfl

theorem stageRank_eq (t : String) : stageRank ("eq=saturation=" ++ t) = 3 := rfl

theorem stageRank_overlay (t : String) : stageRank ("overlay=x=" ++ t) = 4 := rfl

/-! ## `parseVideoStream` -/

/-- `stream.codec_type === 'video'`. -/
def isVideoStream (s : FfprobeStream) : Bool := s.codec_type = some "video"

/-- The numerator field of a rational frame-rate string:
`r_frame_rate.split('/')[0]`, i.e. the prefix up to the first `/` (the
whole string when no `/` occurs). -/
def rateNumerator (r : String) : String :=
  String.mk (r.data.takeWhile (fun c => c ≠ '/'))

/-- `FFMPEG.parseVideoStream` (src/unnamed/part_007, lines 573-580):
finds the first stream whose `codec_type` is `"video"`, throws when that
stream is missing or its `r_frame_rate` is falsy, and otherwise returns the
stream together with `parseInt` of the numerator of its frame-rate string
(`none` models `NaN`). -/
def parseVideoStream (streams : List FfprobeStream) :
    Except String (FfprobeStream × Option Int) :=
  match streams.find? isVideoStream with
  | none => Except.error ("Could not parse video")
  | some videoStream =>
      if jsTruthyOptStr videoStream.r_frame_rate then
        Except.ok (videoStream,
          jsParseInt (rateNumerator (videoStream.r_frame_rate.getD "")))
      else Except.error ("Could not parse video")

/-! ## H264 / H265 profiles

Field-argument records carry only the fields the profile functions read.
`currentFps` is the value produced by `parseVideoStream` (`none` = `NaN`). -/

structure H26xFieldArgs where
  crf : Option Int := none
  preset : Option String := none
  maxRate : Option String := none
  bufSize : Option String := none
  fps : Option Int := none
deriving DecidableEq, Repr

/-- `Math.floor((fps || currentFps) / 2)` (NaN propagates). -/
def jsFloorHalf : Option Int → Option Int
  | none => none
  | some n => some (Int.fdiv n 2)

/-- Template rendering of a JS number that may be `NaN`. -/
def jsShowNum : Option Int → String
  | none => "NaN"
  | some n => toString n

/-- The `-g` keyframe-interval option shared by both H26x profiles. -/
def h26xKeyframeOption (fps currentFps : Option Int) : String :=
  "-g " ++ jsShowNum (jsFloorHalf (jsOrInt fps currentFps))

/-- Output options of `profileH264` (src/unnamed/part_000, lines 12-25):
the source array entries guarded by JS `&&` are modelled as optional list
entries removed by `.filter(Boolean)`.  Note the literal tab after
`-bf 2` present in the source. -/
def h264OutputOptions (a : H26xFieldArgs) (currentFps : Option Int) : List String :=
  List.filterMap id
    [ if jsTruthyOptInt a.crf then some ("-crf " ++ jsShowOptInt a.crf) else none,
      if jsTruthyOptStr a.preset then some ("-preset " ++ a.preset.getD "") else none,
      if !jsTruthyOptInt a.crf && jsTruthyOptStr a.maxRate then
        some ("-maxrate " ++ a.maxRate.getD "") else none,
      if !jsTruthyOptInt a.crf && jsTruthyOptStr a.bufSize then
        some ("-bufsize " ++ a.bufSize.getD "") else none,
      some ("-movflags +faststart"),
      some ("-profile:v high"),
      some ("-bf 2\t"),
      some (h26xKeyframeOption a.fps currentFps),
      some ("-coder 1"),
      some ("-pix_fmt yuv420p") ]

/-- Output options of `profileH265`
(src/packages/gatsby-transformer-video/src/profiles/h265.ts, lines 12-26). -/
def h265OutputOptions (a : H26xFieldArgs) (currentFps : Option Int) : List String :=
  List.filterMap id
    [ if jsTruthyOptInt a.crf then some ("-crf " ++ jsShowOptInt a.crf) else none,
      if jsTruthyOptStr a.preset then some ("-preset " ++ a.preset.getD "") else none,
      if !jsTruthyOptInt a.crf && jsTruthyOptStr a.maxRate && jsTruthyOptStr a.bufSize then
        some ("-x265-params vbv-maxrate=" ++
          (a.maxRate.getD "" ++ (":vbv-bufsize=" ++ a.bufSize.getD "")))
      else none,
      some ("-movflags +faststart"),
      some ("-bf 2"),
      some (h26xKeyframeOption a.fps currentFps),
      some ("-pix_fmt yuv420p"),
      some ("-tag:v hvc1") ]

/-! ## VP9 profile -/

structure VP9FieldArgs where
  crf : Option Int := none
  bitRate : Option String := none
  minRate : Option String := none
  maxRate : Option String := none
  cpuUsed : Option Int := none
  fps : Option Int := none
deriving DecidableEq, Repr

/-- The VP9 bitrate ladder
(src/packages/gatsby-transformer-video/src/profiles/vp9.ts, lines 20-47).
`Object.keys` iterates integer-like keys in ascending numeric order, which
is the listing order here. -/
def vp9BitrateMap : List (Int × List (Int × (String × String × String))) :=
  [ (240, [(30, ("150k", "75k", "218k"))]),
    (360, [(30, ("276k", "138k", "400k"))]),
    (480, [(30, ("750k", "375k", "1088k"))]),
    (720, [(30, ("1024k", "512k", "1485k")), (60, ("1800k", "900k", "2610k"))]),
    (1080, [(30, ("1800k", "900k", "2610k")), (60, ("3000k", "1500k", "4350k"))]),
    (1440, [(30, ("6000k", "3000k", "8700k")), (60, ("9000k", "4500k", "13050k"))]),
    (2160, [(30, ("12000k", "6000k", "17400k")), (60, ("18000k", "9000k", "26100k"))]) ]

/-- One step of the `reduce` closest-key selection of `profileVP9` (vp9.ts,
lines 55-69): replace the accumulator whenever the current (parsed) key is
strictly closer to the target.  A `NaN` target (`none`) keeps the
accumulator (JS comparisons with NaN are false). -/
def closestStep (target : Option Int) (prev curr : Int) : Int :=
  match target with
  | none => prev
  | some t => if (curr - t).natAbs < (prev - t).natAbs then curr else prev

/-- The `reduce` closest-key selection: fold over the keys with initial
accumulator `0`. -/
def closestKeyN (keys : List Int) (target : Option Int) : Int :=
  keys.foldl (closestStep target) 0

/-- The resolution keys of the bitrate ladder. -/
def vp9ResKeys : List Int := vp9BitrateMap.map Prod.fst

/-- `bitrateMap[closestResolution]`; `none` models the JS `undefined` that
crashes the subsequent indexing. -/
def vp9Lookup (res : Int) : Option (List (Int × (String × String × String))) :=
  vp9BitrateMap.lookup res

/-- Bucket selection of `profileVP9`: closest resolution key to the minimum
dimension, then closest fps key to the applied fps, then the triplet. -/
def vp9Selection (dimensionMin : Int) (appliedFps : Option Int) :
    Option (String × String × String) :=
  match vp9Lookup (closestKeyN vp9ResKeys (some dimensionMin)) with
  | none => none
  | some sub => List.lookup (closestKeyN (sub.map Prod.fst) appliedFps) sub

/-- Output options of `profileVP9` (vp9.ts, lines 49-80) on the probed
video stream (`width`/`height` defaulted with `|| 0`) and `currentFps`.
A failed ladder lookup is the JS TypeError raised by indexing
`undefined`. -/
def profileVP9Options (a : VP9FieldArgs) (vs : FfprobeStream)
    (currentFps : Option Int) : Except String (List String) :=
  match vp9Selection (min (jsOrZero vs.width) (jsOrZero vs.height))
      (jsOrInt a.fps currentFps) with
  | none => Except.error ("TypeError: cannot index undefined bitrate bucket")
  | some t =>
      Except.ok (List.filterMap id
        [ if jsTruthyOptInt a.crf then some ("-crf " ++ jsShowOptInt a.crf) else none,
          some ("-b:v " ++ jsOrStr a.bitRate t.1),
          some ("-minrate " ++ jsOrStr a.minRate t.2.1),
          some ("-maxrate " ++ jsOrStr a.maxRate t.2.2),
          some ("-cpu-used " ++ jsShowOptInt a.cpuUsed),
          some ("-g " ++ jsShowNum ((jsOrInt a.fps currentFps).map (fun n => n * 8))),
          some ("-pix_fmt yuv420p") ])

/-! ## Cache-key derivation (`analyzeAndFetchVideo`)

`analyzeAndFetchVideo` (src/unnamed/part_007, lines 108-149) derives the
cache filename as `${name}-${contentDigest}-${optionsHash}` with
`optionsHash = createContentDigest(fieldArgs)`.  `createContentDigest`
lives in the external `gatsby-core-utils` package, not under `src/`. -/

/-- An option set as a finite key/value map, in insertion order. -/
def OptionSet := List (String × String)

/-- Total order on option entries: by key, then by value. -/
def entryLe (a b : String × String) : Prop :=
  a.1 < b.1 ∨ (a.1 = b.1 ∧ a.2 ≤ b.2)

instance : DecidableRel entryLe := fun a b => by
  unfold entryLe; infer_instance

instance : IsTotal (String × String) entryLe := by
  constructor
  intro a b
  rcases lt_trichotomy a.1 b.1 with h | h | h
  · exact Or.inl (Or.inl h)
  · rcases le_total a.2 b.2 with h2 | h2
    · exact Or.inl (Or.inr ⟨h, h2⟩)
    · exact Or.inr (Or.inr ⟨h.symm, h2⟩)
  · exact Or.inr (Or.inl h)

instance : IsTrans (String × String) entryLe := by
  constructor
  intro a b c hab hbc
  rcases hab with h1 | ⟨h1, h1v⟩
  · rcases hbc with h2 | ⟨h2, _⟩
    · exact Or.inl (h1.trans h2)
    · exact Or.inl (h2 ▸ h1)
  · rcases hbc with h2 | ⟨h2, h2v⟩
    · exact Or.inl (h1 ▸ h2)
    · exact Or.inr ⟨h1.trans h2, h1v.trans h2v⟩

instance : IsAntisymm (String × String) entryLe := by
  constructor
  intro a b hab hba
  rcases hab with h1 | ⟨h1, h1v⟩
  · rcases hba with h2 | ⟨h2, _⟩
    · exact absurd (h1.trans h2) (lt_irrefl _)
    · exact absurd h1 (h2 ▸ lt_irrefl _)
  · rcases hba with h2 | ⟨h2, h2v⟩
    · exact absurd h2 (h1 ▸ lt_irrefl _)
    · exact Prod.ext h1 (le_antisymm h1v h2v)

/-- Canonical (sorted) form of an option set. -/
def canonicalize (l : OptionSet) : OptionSet :=
  List.insertionSort entryLe l

/-- Flat rendering of an option list. -/
def serializeEntries (l : OptionSet) : String :=
  String.intercalate "|" (l.map (fun p => p.1 ++ ("=" ++ p.2)))

/-- Modelled from the spec: `createContentDigest` of `gatsby-core-utils`
(called by `analyzeAndFetchVideo`, not part of this repository's sources)
hashes an object after canonicalizing it, "equivalent to canonicalizing the
option map before hashing"; the hash itself is modelled as the canonical
serialization, which preserves exactly the equalities a deterministic hash
of the canonical form preserves. -/
def createContentDigest (l : OptionSet) : String :=
  serializeEntries (canonicalize l)

/-- The cache-key derivation of `analyzeAndFetchVideo`:
`${name}-${contentDigest}-${optionsHash}` (src/unnamed/part_007,
lines 142-144). -/
def deriveKey (name contentDigest : String) (fieldArgs : OptionSet) : String :=
  name ++ ("-" ++ (contentDigest ++ ("-" ++ createContentDigest fieldArgs)))

/-! ## `prepareAndAnalyzeVideo` and `resolveVideo` (claim C9) -/

/-- The error taxonomy of the resolver pipeline: the typed skip condition
`WrongFileTypeError` versus every other thrown error. -/
inductive VideoError
  | wrongFileType
  | other (msg : String)
deriving DecidableEq, Repr

/-- The file-type resolution at the start of `prepareAndAnalyzeVideo`
(src/unnamed/part_006): `mediaType` for `File` nodes, `contentType` for
`ContentfulAsset` nodes, `null` otherwise. -/
def prepareFileType (nodeType : String) (mediaType contentType : Option String) :
    Option String :=
  let fileType : Option String := none
  let fileType := if nodeType = "File" then mediaType else fileType
  let fileType := if nodeType = "ContentfulAsset" then contentType else fileType
  fileType

/-- `prepareAndAnalyzeVideo` (src/unnamed/part_006, lines 77-103 of the
module): throws a generic error when no truthy file type is found, throws
the typed `WrongFileTypeError` when the file type does not contain
`video/`, and otherwise continues with the analysis step `analyze`. -/
def prepareAndAnalyzeVideo {α : Type} (nodeType : String)
    (mediaType contentType : Option String) (analyze : Except VideoError α) :
    Except VideoError α :=
  let fileType := prepareFileType nodeType mediaType contentType
  if !jsTruthyOptStr fileType then
    Except.error (VideoError.other ("Unable to extract asset file type"))
  else if containsSubstr (fileType.getD "") ("video/") = false then
    Except.error VideoError.wrongFileType
  else analyze

/-- The `try`/`catch` of `resolveVideo` (gatsby-node.ts, lines 143-176):
run preparation then the transformer/result chain; a `WrongFileTypeError`
resolves to `null`, every other error is re-thrown. -/
def resolveVideo {α β : Type} (prepared : Except VideoError α)
    (transformAndProcess : α → Except VideoError β) :
    Except VideoError (Option β) :=
  match prepared.bind transformAndProcess with
  | Except.ok r => Except.ok (some r)
  | Except.error VideoError.wrongFileType => Except.ok none
  | Except.error e => Except.error e

/-! ## Theorems -/

/-- C2: `restoreFromCache` promotes an artifact that exists only in the
rolling tier by moving it into the active tier (a hit after which the
rolling tier no longer contains it); an artifact already in the active tier
is a hit that leaves the state, including the rolling tier, untouched; an
artifact in neither tier is a miss with the state untouched. -/
theorem restoreFromCache_tier_semantics (s : TierState) :
    (s.active = false → s.rolling = true →
      restoreFromCache s = (true, ⟨true, false⟩)) ∧
    (s.active = true → restoreFromCache s = (true, s)) ∧
    (s.active = false → s.rolling = false → restoreFromCache s = (false, s)) := by
  obtain ⟨a, r⟩ := s
  cases a <;> cases r <;> decide

/-- Witness for C2: all three cases of `restoreFromCache_tier_semantics`
evaluated at concrete tier states. -/
theorem restoreFromCache_tier_semantics_witness :
    restoreFromCache ⟨false, true⟩ = (true, ⟨true, false⟩) ∧
    restoreFromCache ⟨true, true⟩ = (true, ⟨true, true⟩) ∧
    restoreFromCache ⟨false, false⟩ = (false, ⟨false, false⟩) :=
  ⟨(restoreFromCache_tier_semantics ⟨false, true⟩).1 rfl rfl,
   (restoreFromCache_tier_semantics ⟨true, true⟩).2.1 rfl,
   (restoreFromCache_tier_semantics ⟨false, false⟩).2.2 rfl rfl⟩

/-- C3: after `onPostBuild` runs in production, a rolling-only state has
been promoted to active-only, a both-tiers state has had its rolling tier
deleted, and in every starting state no rolling tier remains. -/
theorem onPostBuild_reconciliation (s : TierState) :
    ((onPostBuild ("production") s).rolling = false) ∧
    (s.active = false → s.rolling = true →
      onPostBuild ("production") s = ⟨true, false⟩) ∧
    (s.active = true → s.rolling = true →
      onPostBuild ("production") s = ⟨true, false⟩) := by
  obtain ⟨a, r⟩ := s
  cases a <;> cases r <;> decide

/-- Witness for C3: reconciliation evaluated at the rolling-only and
both-tiers states. -/
theorem onPostBuild_reconciliation_witness :
    onPostBuild ("production") ⟨false, true⟩ = ⟨true, false⟩ ∧
    onPostBuild ("production") ⟨true, true⟩ = ⟨true, false⟩ ∧
    (onPostBuild ("production") ⟨false, false⟩).rolling = false :=
  ⟨(onPostBuild_reconciliation ⟨false, true⟩).2.1 rfl rfl,
   (onPostBuild_reconciliation ⟨true, true⟩).2.2 rfl rfl,
   (onPostBuild_reconciliation ⟨false, false⟩).1⟩

/-- C4: tier rotation at build start is a no-op outside production; in
production, when an active tier exists the (possibly just-deleted stale)
rolling tier is replaced by the renamed active tier, leaving no active
tier; when no active tier exists nothing is rotated. -/
theorem onPreInit_rotation (nodeEnv : String) (s : TierState) :
    (nodeEnv ≠ "production" → onPreInitRotation nodeEnv s = s) ∧
    (s.active = true → onPreInitRotation ("production") s = ⟨false, true⟩) ∧
    (s.active = false → onPreInitRotation ("production") s = s) := by
  refine ⟨?_, ?_, ?_⟩
  · intro h
    simp [onPreInitRotation, h]
  · intro h
    obtain ⟨a, r⟩ := s
    cases a
    · simp at h
    · cases r <;> decide
  · intro h
    obtain ⟨a, r⟩ := s
    cases a
    · cases r <;> decide
    · simp at h

/-- Witness for C4: rotation evaluated in development and at concrete
production states with and without an active tier. -/
theorem onPreInit_rotation_witness :
    onPreInitRotation ("development") ⟨true, true⟩ = ⟨true, true⟩ ∧
    onPreInitRotation ("production") ⟨true, true⟩ = ⟨false, true⟩ ∧
    onPreInitRotation ("production") ⟨false, true⟩ = ⟨false, true⟩ :=
  ⟨(onPreInit_rotation ("development") ⟨true, true⟩).1 (by decide),
   (onPreInit_rotation ("production") ⟨true, true⟩).2.1 rfl,
   (onPreInit_rotation ("production") ⟨false, true⟩).2.2 rfl⟩

/-- C1 (failing input): starting from an empty cache, a conversion whose
external ffmpeg process errors after writing partial output to the active
cache path rejects with the ffmpeg error — but the partial file remains at
the active path (`cachePath = activePath`, and `convertVideo` performs no
cleanup), so a later `restoreFromCache` for the same cache key reports a
hit, contradicting the claim that a failed run commits no valid cache
artifact. -/
theorem convertVideo_failed_run_leaves_cache_hit :
    convertVideoFS (FfmpegOutcome.failure true) ⟨false, false, false⟩ =
      (Except.error ("ffmpeg reported an error"), ⟨true, false, false⟩) ∧
    (restoreFromCache ⟨true, false⟩).1 = true :=
  ⟨rfl, rfl⟩

/-- C8: the derived cache key is invariant under permutation of the
option-set entries (and deterministic, being a function of its inputs):
`deriveKey` combines the canonicalized options hash with the source content
digest in one fixed concatenation order. -/
theorem deriveKey_perm_invariant (name digest : String) (l1 l2 : OptionSet)
    (h : List.Perm l1 l2) :
    deriveKey name digest l1 = deriveKey name digest l2 := by
  have hcanon : canonicalize l1 = canonicalize l2 :=
    List.eq_of_perm_of_sorted
      ((List.perm_insertionSort entryLe l1).trans
        (h.trans (List.perm_insertionSort entryLe l2).symm))
      (List.sorted_insertionSort entryLe l1)
      (List.sorted_insertionSort entryLe l2)
  unfold deriveKey createContentDigest
  rw [hcanon]

/-- Witness for C8: two option sets with identical fields in different
insertion order produce the same cache key. -/
theorem deriveKey_perm_invariant_witness :
    List.Perm [(("maxWidth" : String), ("600" : String)), ("fps", "4")]
      [(("fps" : String), ("4" : String)), ("maxWidth", "600")] ∧
    deriveKey ("clip") ("digest0") [("maxWidth", "600"), ("fps", "4")] =
      deriveKey ("clip") ("digest0") [("fps", "4"), ("maxWidth", "600")] :=
  ⟨by decide,
   deriveKey_perm_invariant ("clip") ("digest0") _ _ (by decide)⟩

/-- C9: a video node whose resolved (non-empty) file type does not contain
"video/" makes `prepareAndAnalyzeVideo` throw the typed
`WrongFileTypeError`, which `resolveVideo` catches and maps to a null
result regardless of the downstream transformer; every other error — from
preparation or from the transform/result chain — is re-thrown and rejects
that job's result, and a successful chain resolves to the processed
value. -/
theorem resolveVideo_wrong_type_skips :
    (∀ (α β : Type) (mt : String) (analyze : Except VideoError α)
        (k : α → Except VideoError β),
      mt ≠ "" → containsSubstr mt ("video/") = false →
      resolveVideo (prepareAndAnalyzeVideo ("File") (some mt) none analyze) k =
        Except.ok none) ∧
    (∀ (α β : Type) (msg : String) (k : α → Except VideoError β),
      resolveVideo (Except.error (VideoError.other msg)) k =
        Except.error (VideoError.other msg)) ∧
    (∀ (α β : Type) (p : α) (msg : String),
      resolveVideo (Except.ok p)
          (fun _ : α => (Except.error (VideoError.other msg) : Except VideoError β)) =
        Except.error (VideoError.other msg)) ∧
    (∀ (α β : Type) (p : α) (g : α → β),
      resolveVideo (Except.ok p) (fun x => Except.ok (g x)) =
        Except.ok (some (g p))) := by
  refine ⟨?_, ?_, ?_, ?_⟩
  · intro α β mt analyze k hmt hnv
    have htruthy : jsTruthyOptStr (some mt) = true := by
      simp [jsTruthyOptStr, hmt]
    simp [prepareAndAnalyzeVideo, prepareFileType, htruthy, hnv, resolveVideo,
      Except.bind]
  · intro α β msg k
    simp [resolveVideo, Except.bind]
  · intro α β p msg
    simp [resolveVideo, Except.bind]
  · intro α β p g
    simp [resolveVideo, Except.bind]

/-- Witness for C9: a JPEG asset resolves to null; a non-typed error
propagates; a successful chain resolves to its value. -/
theorem resolveVideo_wrong_type_skips_witness :
    resolveVideo
        (prepareAndAnalyzeVideo ("File") (some ("image/jpeg")) none
          (Except.ok (0 : Nat)))
        (fun n => Except.ok (n + 1)) = Except.ok none ∧
    resolveVideo (Except.error (VideoError.other ("boom")))
        (fun n : Nat => Except.ok (n + 1)) =
      Except.error (VideoError.other ("boom")) ∧
    resolveVideo (Except.ok (5 : Nat)) (fun n => Except.ok (n + 1)) =
      Except.ok (some 6) :=
  ⟨resolveVideo_wrong_type_skips.1 Nat Nat ("image/jpeg") (Except.ok 0) _
      (by decide) (by decide),
   resolveVideo_wrong_type_skips.2.1 Nat Nat ("boom") _,
   resolveVideo_wrong_type_skips.2.2.2 Nat Nat 5 (fun n => n + 1)⟩

/-- C5: for duration=2, fps=4, maxWidth=600, saturation=1 applied to a
source whose first probed stream reports duration "10.000000", the filter
list is exactly the time-remap stage with multiplier 0.200000, then fps=4,
then the scale stage, with no saturation stage; in general every produced
filter list is ordered by the fixed stage order (duration/time-remap →
frame-rate → scale → saturation → overlay, as classified by `stageRank`),
and when the source duration is unknown (falsy) the time-remap stage is
omitted without an error. -/
theorem createFilters_spec :
    createFilters { maxWidth := some 600, duration := some 2, fps := some 4 }
        [{ duration := some ("10.000000") }] =
      Except.ok ["setpts=0.200000*PTS", "fps=4",
        "scale='min(600,iw)':-2:flags=lanczos"] ∧
    (∀ args streams out, createFilters args streams = Except.ok out →
      List.Chain' (fun m n => m ≤ n) (List.map stageRank out)) ∧
    (∀ args streams st0 out, streams.head? = some st0 →
      jsTruthyOptStr st0.duration = false →
      createFilters args streams = Except.ok out →
      0 ∉ List.map stageRank out) := by
  refine ⟨rfl, ?_, ?_⟩
  · intro args streams out h
    unfold createFilters at h
    cases hs : streams.head? with
    | none => rw [hs] at h; exact absurd h (by simp)
    | some st0 =>
      rw [hs] at h
      simp only [Except.ok.injEq] at h
      rw [← h]
      cases h1 : (jsTruthyOptInt args.duration && jsTruthyOptStr st0.duration) <;>
        cases h2 : jsTruthyOptInt args.fps <;>
        cases h3 : (jsTruthyOptInt args.maxWidth || jsTruthyOptInt args.maxHeight) <;>
        by_cases h4 : args.saturation ≠ 1 <;>
        cases h5 : jsTruthyOptStr args.overlay <;>
        simp [h1, h2, h3, h4, h5, overlayFilter, stageRank_setpts, stageRank_fps,
          stageRank_scale, stageRank_eq, stageRank_overlay]
  · intro args streams st0 out hs hdur h
    unfold createFilters at h
    rw [hs] at h
    simp only [Except.ok.injEq] at h
    rw [← h]
    have h1 : (jsTruthyOptInt args.duration && jsTruthyOptStr st0.duration) = false := by
      simp [hdur]
    cases h2 : jsTruthyOptInt args.fps <;>
      cases h3 : (jsTruthyOptInt args.maxWidth || jsTruthyOptInt args.maxHeight) <;>
      by_cases h4 : args.saturation ≠ 1 <;>
      cases h5 : jsTruthyOptStr args.overlay <;>
      simp [h1, h2, h3, h4, h5, overlayFilter, stageRank_setpts, stageRank_fps,
        stageRank_scale, stageRank_eq, stageRank_overlay]

/-- Witness for C5: the stage ordering and the duration-unknown omission
evaluated at concrete inputs through `createFilters_spec`. -/
theorem createFilters_spec_witness :
    List.Chain' (fun m n => m ≤ n)
      (List.map stageRank ["setpts=0.200000*PTS", "fps=4",
        "scale='min(600,iw)':-2:flags=lanczos"]) ∧
    0 ∉ List.map stageRank ["fps=3"] :=
  ⟨createFilters_spec.2.1
      { maxWidth := some 600, duration := some 2, fps := some 4 }
      [{ duration := some ("10.000000") }] _ createFilters_spec.1,
   createFilters_spec.2.2 { duration := some 5, fps := some 3 } [{}] {} ["fps=3"]
      rfl rfl rfl⟩

/-- C7 (counterexample): with `crf = 0` — a present CRF value, but falsy in
JS — and an explicit max-rate/buffer-size pair, the produced H264 options
contain no CRF option and do contain the max-rate and buffer-size options
(H265 likewise emits its vbv parameter string); and with `fps = 0` the
keyframe interval falls back to the source fps (`-g 15`) instead of
`floor(0 / 2)`. -/
theorem h264_crf_zero_counterexample :
    (("-crf 0") ∉ h264OutputOptions
        { crf := some 0, preset := some ("medium"), maxRate := some ("1M"),
          bufSize := some ("2M"), fps := some 0 } (some 30)) ∧
    (("-maxrate 1M") ∈ h264OutputOptions
        { crf := some 0, preset := some ("medium"), maxRate := some ("1M"),
          bufSize := some ("2M"), fps := some 0 } (some 30)) ∧
    (("-bufsize 2M") ∈ h264OutputOptions
        { crf := some 0, preset := some ("medium"), maxRate := some ("1M"),
          bufSize := some ("2M"), fps := some 0 } (some 30)) ∧
    (("-g 15") ∈ h264OutputOptions
        { crf := some 0, preset := some ("medium"), maxRate := some ("1M"),
          bufSize := some ("2M"), fps := some 0 } (some 30)) ∧
    (("-g 0") ∉ h264OutputOptions
        { crf := some 0, preset := some ("medium"), maxRate := some ("1M"),
          bufSize := some ("2M"), fps := some 0 } (some 30)) ∧
    (("-crf 0") ∉ h265OutputOptions
        { crf := some 0, maxRate := some ("1M"), bufSize := some ("2M") }
        (some 30)) ∧
    (("-x265-params vbv-maxrate=1M:vbv-bufsize=2M") ∈ h265OutputOptions
        { crf := some 0, maxRate := some ("1M"), bufSize := some ("2M") }
        (some 30)) := by
  decide

/-- C7 (amended): for a nonzero (truthy) CRF value together with an
explicit max-rate/buffer-size pair, both H26x profiles emit the CRF option
and drop the rate/buffer options entirely — the full output-option list is
computed; and the keyframe-interval option is always present and equals
`floor(targetFps / 2)` where `targetFps` is the requested fps when truthy
and otherwise the source's current fps. -/
theorem h26x_crf_precedence :
    (∀ (c : Int) (p : Option String) (mr bs : String) (f cf : Option Int),
      c ≠ 0 →
      h264OutputOptions
          { crf := some c, preset := p, maxRate := some mr, bufSize := some bs,
            fps := f } cf =
        ["-crf " ++ toString c] ++
          (if jsTruthyOptStr p then ["-preset " ++ p.getD ""] else []) ++
          ["-movflags +faststart", "-profile:v high", "-bf 2\t",
            h26xKeyframeOption f cf, "-coder 1", "-pix_fmt yuv420p"]) ∧
    (∀ (c : Int) (p : Option String) (mr bs : String) (f cf : Option Int),
      c ≠ 0 →
      h265OutputOptions
          { crf := some c, preset := p, maxRate := some mr, bufSize := some bs,
            fps := f } cf =
        ["-crf " ++ toString c] ++
          (if jsTruthyOptStr p then ["-preset " ++ p.getD ""] else []) ++
          ["-movflags +faststart", "-bf 2", h26xKeyframeOption f cf,
            "-pix_fmt yuv420p", "-tag:v hvc1"]) ∧
    (∀ (a : H26xFieldArgs) (cf : Option Int),
      h26xKeyframeOption a.fps cf ∈ h264OutputOptions a cf) ∧
    (∀ (a : H26xFieldArgs) (cf : Option Int),
      h26xKeyframeOption a.fps cf ∈ h265OutputOptions a cf) := by
  refine ⟨?_, ?_, ?_, ?_⟩
  · intro c p mr bs f cf hc
    have hcrf : jsTruthyOptInt (some c) = true := by
      simp [jsTruthyOptInt, hc]
    cases hp : jsTruthyOptStr p <;>
      simp [h264OutputOptions, hcrf, hp, jsShowOptInt]
  · intro c p mr bs f cf hc
    have hcrf : jsTruthyOptInt (some c) = true := by
      simp [jsTruthyOptInt, hc]
    cases hp : jsTruthyOptStr p <;>
      simp [h265OutputOptions, hcrf, hp, jsShowOptInt]
  · intro a cf
    cases h1 : jsTruthyOptInt a.crf <;>
      cases h2 : jsTruthyOptStr a.preset <;>
      cases h3 : jsTruthyOptStr a.maxRate <;>
      cases h4 : jsTruthyOptStr a.bufSize <;>
      simp [h264OutputOptions, h1, h2, h3, h4]
  · intro a cf
    cases h1 : jsTruthyOptInt a.crf <;>
      cases h2 : jsTruthyOptStr a.preset <;>
      cases h3 : jsTruthyOptStr a.maxRate <;>
      cases h4 : jsTruthyOptStr a.bufSize <;>
      simp [h265OutputOptions, h1, h2, h3, h4]

/-- Witness for C7 (amended): the H264 output for `crf = 28` with an
explicit rate/buffer pair, evaluated concretely. -/
theorem h26x_crf_precedence_witness :
    h264OutputOptions
        { crf := some 28, preset := some ("medium"), maxRate := some ("1M"),
          bufSize := some ("2M"), fps := none } (some 30) =
      ["-crf " ++ toString (28 : Int)] ++
        (if jsTruthyOptStr (some ("medium")) then
          ["-preset " ++ (some ("medium")).getD ""] else []) ++
        ["-movflags +faststart", "-profile:v high", "-bf 2\t",
          h26xKeyframeOption none (some 30), "-coder 1", "-pix_fmt yuv420p"] ∧
    h264OutputOptions
        { crf := some 28, preset := some ("medium"), maxRate := some ("1M"),
          bufSize := some ("2M"), fps := none } (some 30) =
      ["-crf 28", "-preset medium", "-movflags +faststart", "-profile:v high",
        "-bf 2\t", "-g 15", "-coder 1", "-pix_fmt yuv420p"] :=
  ⟨h26x_crf_precedence.1 28 (some ("medium")) ("1M") ("2M") none (some 30)
      (by decide), rfl⟩

/-- C10 (counterexample): a stream list whose first video stream lacks an
`r_frame_rate` makes `parseVideoStream` throw even though a later video
stream carries a parseable frame rate — refuting the claim that it throws
only when no video stream with an `r_frame_rate` is present. -/
theorem parseVideoStream_first_stream_counterexample :
    parseVideoStream
        [{ codec_type := some ("video") },
          { codec_type := some ("video"), r_frame_rate := some ("30/1") }] =
      Except.error ("Could not parse video") ∧
    isVideoStream { codec_type := some ("video"), r_frame_rate := some ("30/1") } = true ∧
    jsTruthyOptStr (FfprobeStream.r_frame_rate
        { codec_type := some ("video"), r_frame_rate := some ("30/1") }) = true := by
  refine ⟨rfl, by decide, by decide⟩

/-- C10 (amended): `parseVideoStream` throws exactly when the FIRST stream
with codec type "video" is absent or its `r_frame_rate` is falsy; otherwise
`currentFps` is the integer parse of only the numerator of that stream's
rational frame-rate string (so "30000/1001" yields 30000), and this value
feeds the keyframe-interval computations of the profiles (`-g 15000` for
H26x via `floor(fps / 2)`, `-g 240000` for VP9 via `fps * 8`). -/
theorem parseVideoStream_spec :
    (∀ streams vs, streams.find? isVideoStream = some vs →
      jsTruthyOptStr vs.r_frame_rate = true →
      parseVideoStream streams =
        Except.ok (vs, jsParseInt (rateNumerator (vs.r_frame_rate.getD "")))) ∧
    (∀ streams vs, streams.find? isVideoStream = some vs →
      jsTruthyOptStr vs.r_frame_rate = false →
      parseVideoStream streams = Except.error ("Could not parse video")) ∧
    (∀ streams, streams.find? isVideoStream = none →
      parseVideoStream streams = Except.error ("Could not parse video")) ∧
    parseVideoStream
        [{ codec_type := some ("video"), r_frame_rate := some ("30000/1001"),
           width := some 1920, height := some 1080 }] =
      Except.ok ({ codec_type := some ("video"),
                   r_frame_rate := some ("30000/1001"), width := some 1920,
                   height := some 1080 }, some 30000) ∧
    ("-g 15000") ∈ h264OutputOptions {} (some 30000) ∧
    ("-g 15000") ∈ h265OutputOptions {} (some 30000) ∧
    profileVP9Options { crf := some 31, cpuUsed := some 1 }
        { codec_type := some ("video"), r_frame_rate := some ("30000/1001"),
          width := some 1920, height := some 1080 }
        (some 30000) =
      Except.ok ["-crf 31", "-b:v 3000k", "-minrate 1500k", "-maxrate 4350k",
        "-cpu-used 1", "-g 240000", "-pix_fmt yuv420p"] := by
  refine ⟨?_, ?_, ?_, rfl, by decide, by decide, rfl⟩
  · intro streams vs hfind htruthy
    unfold parseVideoStream
    rw [hfind]
    simp [htruthy]
  · intro streams vs hfind htruthy
    unfold parseVideoStream
    rw [hfind]
    simp [htruthy]
  · intro streams hfind
    unfold parseVideoStream
    rw [hfind]

/-- Witness for C10 (amended): the three throw/compute cases applied at
concrete stream lists. -/
theorem parseVideoStream_spec_witness :
    parseVideoStream
        [{ codec_type := some ("audio") },
          { codec_type := some ("video"), r_frame_rate := some ("25/1") }] =
      Except.ok ({ codec_type := some ("video"), r_frame_rate := some ("25/1") },
        some 25) ∧
    parseVideoStream [{ codec_type := some ("video") }] =
      Except.error ("Could not parse video") ∧
    parseVideoStream [{ codec_type := some ("audio") }] =
      Except.error ("Could not parse video") :=
  ⟨parseVideoStream_spec.1
      [{ codec_type := some ("audio") },
        { codec_type := some ("video"), r_frame_rate := some ("25/1") }]
      { codec_type := some ("video"), r_frame_rate := some ("25/1") }
      (by decide) (by decide),
   parseVideoStream_spec.2.1 [{ codec_type := some ("video") }]
      { codec_type := some ("video") } (by decide) (by decide),
   parseVideoStream_spec.2.2.1 [{ codec_type := some ("audio") }] (by decide)⟩

/-- C6 (counterexample): a source whose minimum dimension is 90 (e.g. a
90x90 video) keeps the fold's `0` seed — `0` is strictly closer to 90 than
the genuinely closest standard bucket 240 — so no standard bucket is
selected at all and indexing the ladder fails (a TypeError in JS), refuting
the claim for every source video. -/
theorem vp9_seed_zero_counterexample :
    closestKeyN vp9ResKeys (some 90) = 0 ∧
    (0 : Int) ∉ vp9ResKeys ∧
    profileVP9Options { crf := some 31, cpuUsed := some 1 }
        { codec_type := some ("video"), width := some 90, height := some 90 }
        (some 30) =
      Except.error ("TypeError: cannot index undefined bitrate bucket") := by
  refine ⟨rfl, by decide, rfl⟩

/-- `k` is a closest element of `keys` to `t` by absolute difference, with
ties resolved toward the lowest (= first-encountered, the key lists being
ascending) value. -/
def isClosestAmong (keys : List Int) (t k : Int) : Prop :=
  k ∈ keys ∧ (∀ j ∈ keys, (k - t).natAbs ≤ (j - t).natAbs) ∧
    (∀ j ∈ keys, (j - t).natAbs = (k - t).natAbs → k ≤ j)

/-- The fold step takes the current key when it is strictly closer. -/
theorem closestStep_take (t prev curr : Int)
    (h : (curr - t).natAbs < (prev - t).natAbs) :
    closestStep (some t) prev curr = curr := by
  simp [closestStep, h]

/-- The fold step keeps the accumulator otherwise. -/
theorem closestStep_keep (t prev curr : Int)
    (h : ¬ (curr - t).natAbs < (prev - t).natAbs) :
    closestStep (some t) prev curr = prev := by
  simp [closestStep, h]

/-- For a minimum dimension of at least 121 the `0`-seeded fold reaches the
standard resolution buckets, with these thresholds. -/
theorem closestRes_eq (dm : Int) (h : 121 ≤ dm) :
    closestKeyN vp9ResKeys (some dm) =
      if dm ≤ 300 then 240 else if dm ≤ 420 then 360
      else if dm ≤ 600 then 480 else if dm ≤ 900 then 720
      else if dm ≤ 1260 then 1080 else if dm ≤ 1800 then 1440 else 2160 := by
  have hkeys : vp9ResKeys = [240, 360, 480, 720, 1080, 1440, 2160] := rfl
  rw [hkeys]
  unfold closestKeyN
  by_cases h1 : dm ≤ 300
  · rw [if_pos h1]
    rw [List.foldl_cons, closestStep_take dm 0 240 (by omega)]
    rw [List.foldl_cons, closestStep_keep dm 240 360 (by omega)]
    rw [List.foldl_cons, closestStep_keep dm 240 480 (by omega)]
    rw [List.foldl_cons, closestStep_keep dm 240 720 (by omega)]
    rw [List.foldl_cons, closestStep_keep dm 240 1080 (by omega)]
    rw [List.foldl_cons, closestStep_keep dm 240 1440 (by omega)]
    rw [List.foldl_cons, closestStep_keep dm 240 2160 (by omega)]
    rw [List.foldl_nil]
  · rw [if_neg h1]
    by_cases h2 : dm ≤ 420
    · rw [if_pos h2]
      rw [List.foldl_cons, closestStep_take dm 0 240 (by omega)]
      rw [List.foldl_cons, closestStep_take dm 240 360 (by omega)]
      rw [List.foldl_cons, closestStep_keep dm 360 480 (by omega)]
      rw [List.foldl_cons, closestStep_keep dm 360 720 (by omega)]
      rw [List.foldl_cons, closestStep_keep dm 360 1080 (by omega)]
      rw [List.foldl_cons, closestStep_keep dm 360 1440 (by omega)]
      rw [List.foldl_cons, closestStep_keep dm 360 2160 (by omega)]
      rw [List.foldl_nil]
    · rw [if_neg h2]
      by_cases h3 : dm ≤ 600
      · rw [if_pos h3]
        rw [List.foldl_cons, closestStep_take dm 0 240 (by omega)]
        rw [List.foldl_cons, closestStep_take dm 240 360 (by omega)]
        rw [List.foldl_cons, closestStep_take dm 360 480 (by omega)]
        rw [List.foldl_cons, closestStep_keep dm 480 720 (by omega)]
        rw [List.foldl_cons, closestStep_keep dm 480 1080 (by omega)]
        rw [List.foldl_cons, closestStep_keep dm 480 1440 (by omega)]
        rw [List.foldl_cons, closestStep_keep dm 480 2160 (by omega)]
        rw [List.foldl_nil]
      · rw [if_neg h3]
        by_cases h4 : dm ≤ 900
        · rw [if_pos h4]
          rw [List.foldl_cons, closestStep_take dm 0 240 (by omega)]
          rw [List.foldl_cons, closestStep_take dm 240 360 (by omega)]
          rw [List.foldl_cons, closestStep_take dm 360 480 (by omega)]
          rw [List.foldl_cons, closestStep_take dm 480 720 (by omega)]
          rw [List.foldl_cons, closestStep_keep dm 720 1080 (by omega)]
          rw [List.foldl_cons, closestStep_keep dm 720 1440 (by omega)]
          rw [List.foldl_cons, closestStep_keep dm 720 2160 (by omega)]
          rw [List.foldl_nil]
        · rw [if_neg h4]
          by_cases h5 : dm ≤ 1260
          · rw [if_pos h5]
            rw [List.foldl_cons, closestStep_take dm 0 240 (by omega)]
            rw [List.foldl_cons, closestStep_take dm 240 360 (by omega)]
            rw [List.foldl_cons, closestStep_take dm 360 480 (by omega)]
            rw [List.foldl_cons, closestStep_take dm 480 720 (by omega)]
            rw [List.foldl_cons, closestStep_take dm 720 1080 (by omega)]
            rw [List.foldl_cons, closestStep_keep dm 1080 1440 (by omega)]
            rw [List.foldl_cons, closestStep_keep dm 1080 2160 (by omega)]
            rw [List.foldl_nil]
          · rw [if_neg h5]
            by_cases h6 : dm ≤ 1800
            · rw [if_pos h6]
              rw [List.foldl_cons, closestStep_take dm 0 240 (by omega)]
              rw [List.foldl_cons, closestStep_take dm 240 360 (by omega)]
              rw [List.foldl_cons, closestStep_take dm 360 480 (by omega)]
              rw [List.foldl_cons, closestStep_take dm 480 720 (by omega)]
              rw [List.foldl_cons, closestStep_take dm 720 1080 (by omega)]
              rw [List.foldl_cons, closestStep_take dm 1080 1440 (by omega)]
              rw [List.foldl_cons, closestStep_keep dm 1440 2160 (by omega)]
              rw [List.foldl_nil]
            · rw [if_neg h6]
              rw [List.foldl_cons, closestStep_take dm 0 240 (by omega)]
              rw [List.foldl_cons, closestStep_take dm 240 360 (by omega)]
              rw [List.foldl_cons, closestStep_take dm 360 480 (by omega)]
              rw [List.foldl_cons, closestStep_take dm 480 720 (by omega)]
              rw [List.foldl_cons, closestStep_take dm 720 1080 (by omega)]
              rw [List.foldl_cons, closestStep_take dm 1080 1440 (by omega)]
              rw [List.foldl_cons, closestStep_take dm 1440 2160 (by omega)]
              rw [List.foldl_nil]

/-- For an applied fps of at least 16, the fold over a single-entry fps key
list selects the 30fps bucket. -/
theorem closestFps_single (f : Int) (h : 16 ≤ f) :
    closestKeyN [30] (some f) = 30 := by
  unfold closestKeyN
  rw [List.foldl_cons, closestStep_take f 0 30 (by omega), List.foldl_nil]

/-- For an applied fps of at least 16, the fold over the 30/60 fps key list
selects 30 up to 45 fps (ties toward the lower key) and 60 above. -/
theorem closestFps_double (f : Int) (h : 16 ≤ f) :
    closestKeyN [30, 60] (some f) = if f ≤ 45 then 30 else 60 := by
  unfold closestKeyN
  by_cases h45 : f ≤ 45
  · rw [if_pos h45]
    rw [List.foldl_cons, closestStep_take f 0 30 (by omega)]
    rw [List.foldl_cons, closestStep_keep f 30 60 (by omega)]
    rw [List.foldl_nil]
  · rw [if_neg h45]
    rw [List.foldl_cons, closestStep_take f 0 30 (by omega)]
    rw [List.foldl_cons, closestStep_take f 30 60 (by omega)]
    rw [List.foldl_nil]

theorem isClosest_res (dm : Int) (h : 121 ≤ dm) :
    isClosestAmong vp9ResKeys dm (closestKeyN vp9ResKeys (some dm)) := by
  rw [closestRes_eq dm h]
  have hkeys : vp9ResKeys = [240, 360, 480, 720, 1080, 1440, 2160] := rfl
  rw [hkeys]
  split_ifs <;>
    (refine ⟨by simp, ?_, ?_⟩ <;>
      (intro j hj
       simp only [List.mem_cons, List.not_mem_nil, or_false] at hj
       rcases hj with rfl | rfl | rfl | rfl | rfl | rfl | rfl <;> omega))

theorem isClosest_fps_single (f : Int) (h : 16 ≤ f) :
    isClosestAmong [30] f 30 := by
  refine ⟨by simp, ?_, ?_⟩ <;>
    (intro j hj
     simp only [List.mem_cons, List.not_mem_nil, or_false] at hj
     rcases hj with rfl <;> omega)

theorem isClosest_fps_double (f : Int) (h : 16 ≤ f) :
    isClosestAmong [30, 60] f (if f ≤ 45 then 30 else 60) := by
  split_ifs <;>
    (refine ⟨by simp, ?_, ?_⟩ <;>
      (intro j hj
       simp only [List.mem_cons, List.not_mem_nil, or_false] at hj
       rcases hj with rfl | rfl <;> omega))

theorem vp9Selection_of_steps (dm f res fsel : Int)
    (sub : List (Int × (String × String × String)))
    (triplet : String × String × String)
    (hres : closestKeyN vp9ResKeys (some dm) = res)
    (hsub : vp9Lookup res = some sub)
    (hfsel : closestKeyN (sub.map Prod.fst) (some f) = fsel)
    (hlook : List.lookup fsel sub = some triplet) :
    vp9Selection dm (some f) = some triplet := by
  unfold vp9Selection
  rw [hres, hsub]
  show List.lookup (closestKeyN (sub.map Prod.fst) (some f)) sub = some triplet
  rw [hfsel]
  exact hlook

theorem profileVP9Options_of_selection (a : VP9FieldArgs) (vs : FfprobeStream)
    (cf : Option Int) (t : String × String × String)
    (hsel : vp9Selection (min (jsOrZero vs.width) (jsOrZero vs.height))
        (jsOrInt a.fps cf) = some t) :
    profileVP9Options a vs cf =
      Except.ok (List.filterMap id
        [ if jsTruthyOptInt a.crf then some ("-crf " ++ jsShowOptInt a.crf) else none,
          some ("-b:v " ++ jsOrStr a.bitRate t.1),
          some ("-minrate " ++ jsOrStr a.minRate t.2.1),
          some ("-maxrate " ++ jsOrStr a.maxRate t.2.2),
          some ("-cpu-used " ++ jsShowOptInt a.cpuUsed),
          some ("-g " ++ jsShowNum ((jsOrInt a.fps cf).map (fun n => n * 8))),
          some ("-pix_fmt yuv420p") ]) := by
  unfold profileVP9Options
  rw [hsel]

/-- C6 (amended): whenever the source's minimum dimension is at least 121
and the applied frame rate at least 16 (so that a real bucket beats the
fold's `0` seed), and no explicit bitrate/minrate/maxrate are supplied,
`profileVP9` selects the resolution bucket closest by absolute difference
to the minimum dimension among 240/360/480/720/1080/1440/2160 (ties toward
the lowest), then the closest frame-rate bucket, and emits that bucket's
target/min/max bitrate triplet; the keyframe interval is the applied fps
times 8. -/
theorem profileVP9_selects_closest_bucket
    (w h fps0 : Int) (crf cpuUsed currentFps : Option Int)
    (hdim : 121 ≤ min w h) (hfps : 16 ≤ fps0) :
    ∃ res sub fsel triplet,
      isClosestAmong vp9ResKeys (min w h) res ∧
      vp9Lookup res = some sub ∧
      isClosestAmong (sub.map Prod.fst) fps0 fsel ∧
      List.lookup fsel sub = some triplet ∧
      profileVP9Options
          { crf := crf, bitRate := none, minRate := none, maxRate := none,
            cpuUsed := cpuUsed, fps := some fps0 }
          { width := some w, height := some h } currentFps =
        Except.ok
          ((if jsTruthyOptInt crf then ["-crf " ++ jsShowOptInt crf] else []) ++
            ["-b:v " ++ triplet.1, "-minrate " ++ triplet.2.1,
              "-maxrate " ++ triplet.2.2, "-cpu-used " ++ jsShowOptInt cpuUsed,
              "-g " ++ toString (fps0 * 8), "-pix_fmt yuv420p"]) := by
  set dm := min w h with hdmEq
  have htr : jsTruthyOptInt (some fps0) = true := by
    simp [jsTruthyOptInt]
    omega
  have hOr : jsOrInt (some fps0) currentFps = some fps0 := by
    simp [jsOrInt, htr]
  by_cases h1 : dm ≤ 300
  · have hres : closestKeyN vp9ResKeys (some dm) = 240 := by
      rw [closestRes_eq dm hdim, if_pos h1]
    have hsel0 : vp9Selection dm (some fps0) = some ("150k", "75k", "218k") :=
      vp9Selection_of_steps dm fps0 240 30 [(30, ("150k", "75k", "218k"))] ("150k", "75k", "218k")
        hres rfl (closestFps_single fps0 hfps) rfl
    refine ⟨240, [(30, ("150k", "75k", "218k"))], 30, ("150k", "75k", "218k"),
      hres ▸ isClosest_res dm hdim, rfl, isClosest_fps_single fps0 hfps, rfl, ?_⟩
    have hsel1 : vp9Selection (min w h) (jsOrInt (some fps0) currentFps) =
        some ("150k", "75k", "218k") := by
      rw [hOr]
      exact hsel0
    rw [profileVP9Options_of_selection
      { crf := crf, bitRate := none, minRate := none, maxRate := none,
        cpuUsed := cpuUsed, fps := some fps0 }
      { width := some w, height := some h } currentFps _ hsel1]
    cases hcrf : jsTruthyOptInt crf <;>
      simp [hcrf, jsOrStr, jsTruthyOptStr, jsShowNum, hOr]
  · -- dm above 300
    by_cases h2 : dm ≤ 420
    · have hres : closestKeyN vp9ResKeys (some dm) = 360 := by
        rw [closestRes_eq dm hdim, if_neg h1, if_pos h2]
      have hsel0 : vp9Selection dm (some fps0) = some ("276k", "138k", "400k") :=
        vp9Selection_of_steps dm fps0 360 30 [(30, ("276k", "138k", "400k"))] ("276k", "138k", "400k")
          hres rfl (closestFps_single fps0 hfps) rfl
      refine ⟨360, [(30, ("276k", "138k", "400k"))], 30, ("276k", "138k", "400k"),
        hres ▸ isClosest_res dm hdim, rfl, isClosest_fps_single fps0 hfps, rfl, ?_⟩
      have hsel1 : vp9Selection (min w h) (jsOrInt (some fps0) currentFps) =
          some ("276k", "138k", "400k") := by
        rw [hOr]
        exact hsel0
      rw [profileVP9Options_of_selection
        { crf := crf, bitRate := none, minRate := none, maxRate := none,
          cpuUsed := cpuUsed, fps := some fps0 }
        { width := some w, height := some h } currentFps _ hsel1]
      cases hcrf : jsTruthyOptInt crf <;>
        simp [hcrf, jsOrStr, jsTruthyOptStr, jsShowNum, hOr]
    · -- dm above 420
      by_cases h3 : dm ≤ 600
      · have hres : closestKeyN vp9ResKeys (some dm) = 480 := by
          rw [closestRes_eq dm hdim, if_neg h1, if_neg h2, if_pos h3]
        have hsel0 : vp9Selection dm (some fps0) = some ("750k", "375k", "1088k") :=
          vp9Selection_of_steps dm fps0 480 30 [(30, ("750k", "375k", "1088k"))] ("750k", "375k", "1088k")
            hres rfl (closestFps_single fps0 hfps) rfl
        refine ⟨480, [(30, ("750k", "375k", "1088k"))], 30, ("750k", "375k", "1088k"),
          hres ▸ isClosest_res dm hdim, rfl, isClosest_fps_single fps0 hfps, rfl, ?_⟩
        have hsel1 : vp9Selection (min w h) (jsOrInt (some fps0) currentFps) =
            some ("750k", "375k", "1088k") := by
          rw [hOr]
          exact hsel0
        rw [profileVP9Options_of_selection
          { crf := crf, bitRate := none, minRate := none, maxRate := none,
            cpuUsed := cpuUsed, fps := some fps0 }
          { width := some w, height := some h } currentFps _ hsel1]
        cases hcrf : jsTruthyOptInt crf <;>
          simp [hcrf, jsOrStr, jsTruthyOptStr, jsShowNum, hOr]
      · -- dm above 600
        by_cases h4 : dm ≤ 900
        · have hres : closestKeyN vp9ResKeys (some dm) = 720 := by
            rw [closestRes_eq dm hdim, if_neg h1, if_neg h2, if_neg h3, if_pos h4]
          by_cases h45 : fps0 ≤ 45
          · have hfsel : closestKeyN ([(30, ("1024k", "512k", "1485k")), (60, ("1800k", "900k", "2610k"))].map Prod.fst) (some fps0) = 30 := by
              have hcd := closestFps_double fps0 hfps
              rw [if_pos h45] at hcd
              exact hcd
            have hicf : isClosestAmong ([(30, ("1024k", "512k", "1485k")), (60, ("1800k", "900k", "2610k"))].map Prod.fst) fps0 30 := by
              have hic := isClosest_fps_double fps0 hfps
              rw [if_pos h45] at hic
              exact hic
            have hsel0 : vp9Selection dm (some fps0) = some ("1024k", "512k", "1485k") :=
              vp9Selection_of_steps dm fps0 720 30 [(30, ("1024k", "512k", "1485k")), (60, ("1800k", "900k", "2610k"))] ("1024k", "512k", "1485k")
                hres rfl hfsel rfl
            refine ⟨720, [(30, ("1024k", "512k", "1485k")), (60, ("1800k", "900k", "2610k"))], 30, ("1024k", "512k", "1485k"),
              hres ▸ isClosest_res dm hdim, rfl, hicf, rfl, ?_⟩
            have hsel1 : vp9Selection (min w h) (jsOrInt (some fps0) currentFps) =
                some ("1024k", "512k", "1485k") := by
              rw [hOr]
              exact hsel0
            rw [profileVP9Options_of_selection
              { crf := crf, bitRate := none, minRate := none, maxRate := none,
                cpuUsed := cpuUsed, fps := some fps0 }
              { width := some w, height := some h } currentFps _ hsel1]
            cases hcrf : jsTruthyOptInt crf <;>
              simp [hcrf, jsOrStr, jsTruthyOptStr, jsShowNum, hOr]
          · have hfsel : closestKeyN ([(30, ("1024k", "512k", "1485k")), (60, ("1800k", "900k", "2610k"))].map Prod.fst) (some fps0) = 60 := by
              have hcd := closestFps_double fps0 hfps
              rw [if_neg h45] at hcd
              exact hcd
            have hicf : isClosestAmong ([(30, ("1024k", "512k", "1485k")), (60, ("1800k", "900k", "2610k"))].map Prod.fst) fps0 60 := by
              have hic := isClosest_fps_double fps0 hfps
              rw [if_neg h45] at hic
              exact hic
            have hsel0 : vp9Selection dm (some fps0) = some ("1800k", "900k", "2610k") :=
              vp9Selection_of_steps dm fps0 720 60 [(30, ("1024k", "512k", "1485k")), (60, ("1800k", "900k", "2610k"))] ("1800k", "900k", "2610k")
                hres rfl hfsel rfl
            refine ⟨720, [(30, ("1024k", "512k", "1485k")), (60, ("1800k", "900k", "2610k"))], 60, ("1800k", "900k", "2610k"),
              hres ▸ isClosest_res dm hdim, rfl, hicf, rfl, ?_⟩
            have hsel1 : vp9Selection (min w h) (jsOrInt (some fps0) currentFps) =
                some ("1800k", "900k", "2610k") := by
              rw [hOr]
              exact hsel0
            rw [profileVP9Options_of_selection
              { crf := crf, bitRate := none, minRate := none, maxRate := none,
                cpuUsed := cpuUsed, fps := some fps0 }
              { width := some w, height := some h } currentFps _ hsel1]
            cases hcrf : jsTruthyOptInt crf <;>
              simp [hcrf, jsOrStr, jsTruthyOptStr, jsShowNum, hOr]
        · -- dm above 900
          by_cases h5 : dm ≤ 1260
          · have hres : closestKeyN vp9ResKeys (some dm) = 1080 := by
              rw [closestRes_eq dm hdim, if_neg h1, if_neg h2, if_neg h3, if_neg h4, if_pos h5]
            by_cases h45 : fps0 ≤ 45
            · have hfsel : closestKeyN ([(30, ("1800k", "900k", "2610k")), (60, ("3000k", "1500k", "4350k"))].map Prod.fst) (some fps0) = 30 := by
                have hcd := closestFps_double fps0 hfps
                rw [if_pos h45] at hcd
                exact hcd
              have hicf : isClosestAmong ([(30, ("1800k", "900k", "2610k")), (60, ("3000k", "1500k", "4350k"))].map Prod.fst) fps0 30 := by
                have hic := isClosest_fps_double fps0 hfps
                rw [if_pos h45] at hic
                exact hic
              have hsel0 : vp9Selection dm (some fps0) = some ("1800k", "900k", "2610k") :=
                vp9Selection_of_steps dm fps0 1080 30 [(30, ("1800k", "900k", "2610k")), (60, ("3000k", "1500k", "4350k"))] ("1800k", "900k", "2610k")
                  hres rfl hfsel rfl
              refine ⟨1080, [(30, ("1800k", "900k", "2610k")), (60, ("3000k", "1500k", "4350k"))], 30, ("1800k", "900k", "2610k"),
                hres ▸ isClosest_res dm hdim, rfl, hicf, rfl, ?_⟩
              have hsel1 : vp9Selection (min w h) (jsOrInt (some fps0) currentFps) =
                  some ("1800k", "900k", "2610k") := by
                rw [hOr]
                exact hsel0
              rw [profileVP9Options_of_selection
                { crf := crf, bitRate := none, minRate := none, maxRate := none,
                  cpuUsed := cpuUsed, fps := some fps0 }
                { width := some w, height := some h } currentFps _ hsel1]
              cases hcrf : jsTruthyOptInt crf <;>
                simp [hcrf, jsOrStr, jsTruthyOptStr, jsShowNum, hOr]
            · have hfsel : closestKeyN ([(30, ("1800k", "900k", "2610k")), (60, ("3000k", "1500k", "4350k"))].map Prod.fst) (some fps0) = 60 := by
                have hcd := closestFps_double fps0 hfps
                rw [if_neg h45] at hcd
                exact hcd
              have hicf : isClosestAmong ([(30, ("1800k", "900k", "2610k")), (60, ("3000k", "1500k", "4350k"))].map Prod.fst) fps0 60 := by
                have hic := isClosest_fps_double fps0 hfps
                rw [if_neg h45] at hic
                exact hic
              have hsel0 : vp9Selection dm (some fps0) = some ("3000k", "1500k", "4350k") :=
                vp9Selection_of_steps dm fps0 1080 60 [(30, ("1800k", "900k", "2610k")), (60, ("3000k", "1500k", "4350k"))] ("3000k", "1500k", "4350k")
                  hres rfl hfsel rfl
              refine ⟨1080, [(30, ("1800k", "900k", "2610k")), (60, ("3000k", "1500k", "4350k"))], 60, ("3000k", "1500k", "4350k"),
                hres ▸ isClosest_res dm hdim, rfl, hicf, rfl, ?_⟩
              have hsel1 : vp9Selection (min w h) (jsOrInt (some fps0) currentFps) =
                  some ("3000k", "1500k", "4350k") := by
                rw [hOr]
                exact hsel0
              rw [profileVP9Options_of_selection
                { crf := crf, bitRate := none, minRate := none, maxRate := none,
                  cpuUsed := cpuUsed, fps := some fps0 }
                { width := some w, height := some h } currentFps _ hsel1]
              cases hcrf : jsTruthyOptInt crf <;>
                simp [hcrf, jsOrStr, jsTruthyOptStr, jsShowNum, hOr]
          · -- dm above 1260
            by_cases h6 : dm ≤ 1800
            · have hres : closestKeyN vp9ResKeys (some dm) = 1440 := by
                rw [closestRes_eq dm hdim, if_neg h1, if_neg h2, if_neg h3, if_neg h4, if_neg h5, if_pos h6]
              by_cases h45 : fps0 ≤ 45
              · have hfsel : closestKeyN ([(30, ("6000k", "3000k", "8700k")), (60, ("9000k", "4500k", "13050k"))].map Prod.fst) (some fps0) = 30 := by
                  have hcd := closestFps_double fps0 hfps
                  rw [if_pos h45] at hcd
                  exact hcd
                have hicf : isClosestAmong ([(30, ("6000k", "3000k", "8700k")), (60, ("9000k", "4500k", "13050k"))].map Prod.fst) fps0 30 := by
                  have hic := isClosest_fps_double fps0 hfps
                  rw [if_pos h45] at hic
                  exact hic
                have hsel0 : vp9Selection dm (some fps0) = some ("6000k", "3000k", "8700k") :=
                  vp9Selection_of_steps dm fps0 1440 30 [(30, ("6000k", "3000k", "8700k")), (60, ("9000k", "4500k", "13050k"))] ("6000k", "3000k", "8700k")
                    hres rfl hfsel rfl
                refine ⟨1440, [(30, ("6000k", "3000k", "8700k")), (60, ("9000k", "4500k", "13050k"))], 30, ("6000k", "3000k", "8700k"),
                  hres ▸ isClosest_res dm hdim, rfl, hicf, rfl, ?_⟩
                have hsel1 : vp9Selection (min w h) (jsOrInt (some fps0) currentFps) =
                    some ("6000k", "3000k", "8700k") := by
                  rw [hOr]
                  exact hsel0
                rw [profileVP9Options_of_selection
                  { crf := crf, bitRate := none, minRate := none, maxRate := none,
                    cpuUsed := cpuUsed, fps := some fps0 }
                  { width := some w, height := some h } currentFps _ hsel1]
                cases hcrf : jsTruthyOptInt crf <;>
                  simp [hcrf, jsOrStr, jsTruthyOptStr, jsShowNum, hOr]
              · have hfsel : closestKeyN ([(30, ("6000k", "3000k", "8700k")), (60, ("9000k", "4500k", "13050k"))].map Prod.fst) (some fps0) = 60 := by
                  have hcd := closestFps_double fps0 hfps
                  rw [if_neg h45] at hcd
                  exact hcd
                have hicf : isClosestAmong ([(30, ("6000k", "3000k", "8700k")), (60, ("9000k", "4500k", "13050k"))].map Prod.fst) fps0 60 := by
                  have hic := isClosest_fps_double fps0 hfps
                  rw [if_neg h45] at hic
                  exact hic
                have hsel0 : vp9Selection dm (some fps0) = some ("9000k", "4500k", "13050k") :=
                  vp9Selection_of_steps dm fps0 1440 60 [(30, ("6000k", "3000k", "8700k")), (60, ("9000k", "4500k", "13050k"))] ("9000k", "4500k", "13050k")
                    hres rfl hfsel rfl
                refine ⟨1440, [(30, ("6000k", "3000k", "8700k")), (60, ("9000k", "4500k", "13050k"))], 60, ("9000k", "4500k", "13050k"),
                  hres ▸ isClosest_res dm hdim, rfl, hicf, rfl, ?_⟩
                have hsel1 : vp9Selection (min w h) (jsOrInt (some fps0) currentFps) =
                    some ("9000k", "4500k", "13050k") := by
                  rw [hOr]
                  exact hsel0
                rw [profileVP9Options_of_selection
                  { crf := crf, bitRate := none, minRate := none, maxRate := none,
                    cpuUsed := cpuUsed, fps := some fps0 }
                  { width := some w, height := some h } currentFps _ hsel1]
                cases hcrf : jsTruthyOptInt crf <;>
                  simp [hcrf, jsOrStr, jsTruthyOptStr, jsShowNum, hOr]
            · -- dm above 1800
              have hres : closestKeyN vp9ResKeys (some dm) = 2160 := by
                rw [closestRes_eq dm hdim, if_neg h1, if_neg h2, if_neg h3, if_neg h4, if_neg h5, if_neg h6]
              by_cases h45 : fps0 ≤ 45
              · have hfsel : closestKeyN ([(30, ("12000k", "6000k", "17400k")), (60, ("18000k", "9000k", "26100k"))].map Prod.fst) (some fps0) = 30 := by
                  have hcd := closestFps_double fps0 hfps
                  rw [if_pos h45] at hcd
                  exact hcd
                have hicf : isClosestAmong ([(30, ("12000k", "6000k", "17400k")), (60, ("18000k", "9000k", "26100k"))].map Prod.fst) fps0 30 := by
                  have hic := isClosest_fps_double fps0 hfps
                  rw [if_pos h45] at hic
                  exact hic
                have hsel0 : vp9Selection dm (some fps0) = some ("12000k", "6000k", "17400k") :=
                  vp9Selection_of_steps dm fps0 2160 30 [(30, ("12000k", "6000k", "17400k")), (60, ("18000k", "9000k", "26100k"))] ("12000k", "6000k", "17400k")
                    hres rfl hfsel rfl
                refine ⟨2160, [(30, ("12000k", "6000k", "17400k")), (60, ("18000k", "9000k", "26100k"))], 30, ("12000k", "6000k", "17400k"),
                  hres ▸ isClosest_res dm hdim, rfl, hicf, rfl, ?_⟩
                have hsel1 : vp9Selection (min w h) (jsOrInt (some fps0) currentFps) =
                    some ("12000k", "6000k", "17400k") := by
                  rw [hOr]
                  exact hsel0
                rw [profileVP9Options_of_selection
                  { crf := crf, bitRate := none, minRate := none, maxRate := none,
                    cpuUsed := cpuUsed, fps := some fps0 }
                  { width := some w, height := some h } currentFps _ hsel1]
                cases hcrf : jsTruthyOptInt crf <;>
                  simp [hcrf, jsOrStr, jsTruthyOptStr, jsShowNum, hOr]
              · have hfsel : closestKeyN ([(30, ("12000k", "6000k", "17400k")), (60, ("18000k", "9000k", "26100k"))].map Prod.fst) (some fps0) = 60 := by
                  have hcd := closestFps_double fps0 hfps
                  rw [if_neg h45] at hcd
                  exact hcd
                have hicf : isClosestAmong ([(30, ("12000k", "6000k", "17400k")), (60, ("18000k", "9000k", "26100k"))].map Prod.fst) fps0 60 := by
                  have hic := isClosest_fps_double fps0 hfps
                  rw [if_neg h45] at hic
                  exact hic
                have hsel0 : vp9Selection dm (some fps0) = some ("18000k", "9000k", "26100k") :=
                  vp9Selection_of_steps dm fps0 2160 60 [(30, ("12000k", "6000k", "17400k")), (60, ("18000k", "9000k", "26100k"))] ("18000k", "9000k", "26100k")
                    hres rfl hfsel rfl
                refine ⟨2160, [(30, ("12000k", "6000k", "17400k")), (60, ("18000k", "9000k", "26100k"))], 60, ("18000k", "9000k", "26100k"),
                  hres ▸ isClosest_res dm hdim, rfl, hicf, rfl, ?_⟩
                have hsel1 : vp9Selection (min w h) (jsOrInt (some fps0) currentFps) =
                    some ("18000k", "9000k", "26100k") := by
                  rw [hOr]
                  exact hsel0
                rw [profileVP9Options_of_selection
                  { crf := crf, bitRate := none, minRate := none, maxRate := none,
                    cpuUsed := cpuUsed, fps := some fps0 }
                  { width := some w, height := some h } currentFps _ hsel1]
                cases hcrf : jsTruthyOptInt crf <;>
                  simp [hcrf, jsOrStr, jsTruthyOptStr, jsShowNum, hOr]

/-- Witness for C6 (amended): a source with minimum dimension 715 at 30fps
selects the 720p/30fps bucket and its triplet, with keyframe interval
240. -/
theorem profileVP9_selects_closest_bucket_witness :
    (∃ res sub fsel triplet,
      isClosestAmong vp9ResKeys (min 715 715) res ∧
      vp9Lookup res = some sub ∧
      isClosestAmong (sub.map Prod.fst) 30 fsel ∧
      List.lookup fsel sub = some triplet ∧
      profileVP9Options
          { crf := some 31, bitRate := none, minRate := none, maxRate := none,
            cpuUsed := some 1, fps := some 30 }
          { width := some 715, height := some 715 } (some 30) =
        Except.ok
          ((if jsTruthyOptInt (some 31) then
              ["-crf " ++ jsShowOptInt (some 31)] else []) ++
            ["-b:v " ++ triplet.1, "-minrate " ++ triplet.2.1,
              "-maxrate " ++ triplet.2.2,
              "-cpu-used " ++ jsShowOptInt (some 1),
              "-g " ++ toString ((30 : Int) * 8), "-pix_fmt yuv420p"])) ∧
    profileVP9Options
        { crf := some 31, bitRate := none, minRate := none, maxRate := none,
          cpuUsed := some 1, fps := some 30 }
        { width := some 715, height := some 715 } (some 30) =
      Except.ok ["-crf 31", "-b:v 1024k", "-minrate 512k", "-maxrate 1485k",
        "-cpu-used 1", "-g 240", "-pix_fmt yuv420p"] :=
  ⟨profileVP9_selects_closest_bucket 715 715 30 (some 31) (some 1) (some 30)
      (by norm_num) (by norm_num), rfl⟩

end GatsbyVideo
